import Mathlib

/-!
Verification of the course-pace utility logic of canvas-lms
(ui/features course pacing utilities, `utils.ts`).

Shallow embedding conventions:
* JavaScript numbers that hold integral day counts are modelled as `Int`;
  `Math.floor (a / b)` is `Int.fdiv a b` and the JS `%` operator (truncated
  remainder) is `Int.tmod a b`.
* Moment dates are modelled at day granularity as `Int` day indices
  (days since 1970-01-01, so day 0 is a Thursday); `startOf day` and
  `endOf day` are the identity at this granularity, and
  `moment(d).add(n, days)` is `d + n`.
* `undefined` values are `Option.none`.
* The external collaborators `DateHelpers` and `PaceDueDatesCalculator`
  are repository code that is not part of the sources considered here;
  they are modelled from the specification (each such definition carries a
  doc comment starting with "Modelled from the spec:").
-/

/-- Record `PaceDuration`: `{weeks, days}`. -/
structure PaceDuration where
  weeks : Int
  days : Int
deriving DecidableEq, Repr

/-- Record `CoursePaceItem`: an orderable item with an id, a categorical
`module_item_type` tag and a `duration` (working days allotted). -/
structure CoursePaceItem where
  id : String
  module_item_type : String
  duration : Int
deriving DecidableEq, Repr

/-- Record `AssignmentWeightening`: optional per-category weights
(`undefined` fields are `none`). -/
structure AssignmentWeightening where
  assignment : Option Int
  discussion : Option Int
  quiz : Option Int
  page : Option Int
deriving DecidableEq, Repr

/-- Record `BlackoutDate`: an inclusive date interval excluded from due-date
counting (day-index granularity). -/
structure BlackoutDate where
  start_date : Int
  end_date : Int
deriving DecidableEq, Repr

/-- A module of a course pace: we only need its item list. -/
structure CoursePaceModule where
  items : List CoursePaceItem
deriving DecidableEq, Repr

/-- Record `CoursePace`: start date (possibly `undefined`), calendar-day budget,
exclusion flags, and the module list.  `selected_days_to_skip` is a set of
weekdays, encoded by weekday index (0 = Sunday … 6 = Saturday). -/
structure CoursePace where
  start_date : Option Int
  time_to_complete_calendar_days : Int
  exclude_weekends : Bool
  selected_days_to_skip : List Nat
  modules : List CoursePaceModule
deriving DecidableEq, Repr

/-- JS falsy-or on an optional number: `v || fallback` yields `fallback`
when `v` is `undefined` or `0`, and the value of `v` otherwise. -/
def jsOrElse (v : Option Int) (fallback : Int) : Int :=
  match v with
  | none => fallback
  | some x => if x = 0 then fallback else x

/-- Source: `calendarDaysToPaceDuration`.
`{ weeks: Math.floor(calendarDays / 7), days: calendarDays % 7 }`. -/
def calendarDaysToPaceDuration (calendarDays : Int) : PaceDuration :=
  { weeks := Int.fdiv calendarDays 7, days := Int.tmod calendarDays 7 }

/-- Source: the inner `getDuration` closure of `calculatePaceItemDuration`:
a switch on the item type returning the matching weighting field,
`undefined` on any other type. -/
def getDuration (itemType : String) (w : AssignmentWeightening) : Option Int :=
  match itemType with
  | "Assignment" => w.assignment
  | "DiscussionTopic" => w.discussion
  | "Quizzes::Quiz" => w.quiz
  | "Page" => w.page
  | _ => none

/-- Source: `calculatePaceItemDuration`.  Maps over the items, setting
`duration := getDuration(item.module_item_type) || item.duration`. -/
def calculatePaceItemDuration (coursePaceItem : List CoursePaceItem)
    (assignmentWeightedDuration : AssignmentWeightening) : List CoursePaceItem :=
  coursePaceItem.map (fun item =>
    { item with duration := jsOrElse (getDuration item.module_item_type assignmentWeightedDuration) item.duration })

/-- Weekday of a day index, 0 = Sunday … 6 = Saturday
(day 0 = 1970-01-01 is a Thursday, hence the offset 4). -/
def weekday (d : Int) : Nat :=
  ((d + 4).emod 7).toNat

/-- Modelled from the spec: a day is excluded when it is a weekend day and
weekends are excluded, or its weekday is in the selected-days-to-skip set,
or it lies in some blackout interval (inclusive). -/
def isDayExcluded (excludeWeekends : Bool) (skip : List Nat)
    (blackouts : List BlackoutDate) (d : Int) : Bool :=
  (excludeWeekends && (weekday d == 0 || weekday d == 6))
    || skip.contains (weekday d)
    || blackouts.any (fun b => b.start_date ≤ d && d ≤ b.end_date)

/-- Totality bound for the eligible-day search (the spec leaves the
all-days-excluded situation undefined; the search gives up after this
many consecutive excluded days). -/
def searchFuel : Nat := 1000

/-- Modelled from the spec: the first eligible (non-excluded) day at or
after `d`, searching at most `fuel` days forward. -/
def nextEligibleDay (fuel : Nat) (excludeWeekends : Bool) (skip : List Nat)
    (blackouts : List BlackoutDate) (d : Int) : Int :=
  match fuel with
  | 0 => d
  | f + 1 =>
    if isDayExcluded excludeWeekends skip blackouts d then
      nextEligibleDay f excludeWeekends skip blackouts (d + 1)
    else d

/-- Modelled from the spec: `DateHelpers.addDays` is the "add N eligible
days skipping exclusions" primitive - each step advances to the next
eligible day strictly after the current one. -/
def addDays (d : Int) (n : Nat) (excludeWeekends : Bool) (skip : List Nat)
    (blackouts : List BlackoutDate) : Int :=
  match n with
  | 0 => d
  | k + 1 =>
    addDays (nextEligibleDay searchFuel excludeWeekends skip blackouts (d + 1))
      k excludeWeekends skip blackouts

/-- Modelled from the spec: `DateHelpers.rawDaysBetweenInclusive` is the
inclusive calendar-day count between two dates. -/
def rawDaysBetweenInclusive (startDate endDate : Int) : Int :=
  endDate - startDate + 1

/-- Modelled from the spec: `DateHelpers.daysBetween` counts the eligible
working days strictly between the two dates, respecting the exclusion
rules. -/
def daysBetween (startDate endDate : Int) (excludeWeekends : Bool)
    (skip : List Nat) (blackouts : List BlackoutDate) : Int :=
  (((List.range (endDate - startDate - 1).toNat).map (fun i => startDate + 1 + i)).filter
    (fun d => ¬ isDayExcluded excludeWeekends skip blackouts d)).length

/-- Modelled from the spec: `PaceDueDatesCalculator.getDueDates` walks the
items sequentially from the start date; each item's due date is obtained
from the previous one by advancing `duration` eligible days.  Returns one
due date per item, in item order. -/
def getDueDatesAux (excludeWeekends : Bool) (skip : List Nat)
    (blackouts : List BlackoutDate) (current : Int) :
    List CoursePaceItem → List Int
  | [] => []
  | item :: rest =>
    let due := addDays current item.duration.toNat excludeWeekends skip blackouts
    due :: getDueDatesAux excludeWeekends skip blackouts due rest

/-- Modelled from the spec: see `getDueDatesAux`. -/
def getDueDates (items : List CoursePaceItem) (excludeWeekends : Bool)
    (skip : List Nat) (blackouts : List BlackoutDate) (startDate : Int) : List Int :=
  getDueDatesAux excludeWeekends skip blackouts startDate items

/-- Maximum (`moment.max`) over a list of dates (the source applies it to the values
of the due-date mapping; on the empty list the source result is an invalid
moment, modelled here by 0). -/
def momentMax (l : List Int) : Int :=
  match l with
  | [] => 0
  | x :: xs => xs.foldl max x

/-- The start date the pace functions feed to moment
(`moment(coursePace.start_date)`); an `undefined` start date is outside
the scope of the claims and modelled as day 0. -/
def paceStart (coursePace : CoursePace) : Int :=
  coursePace.start_date.getD 0

/-- Source: `calculatePaceDuration` - inclusive day count between the two
dates, converted by `calendarDaysToPaceDuration`. -/
def calculatePaceDuration (startDate endDate : Int) : PaceDuration :=
  calendarDaysToPaceDuration (rawDaysBetweenInclusive startDate endDate)

/-- Source: `isTimeToCompleteCalendarDaysValid` - projects due dates via
the Due-Date Calculator, takes their maximum, and compares the inclusive
span from the start of the start date against the calendar-day budget. -/
def isTimeToCompleteCalendarDaysValid (coursePace : CoursePace)
    (coursePaceItem : List CoursePaceItem) (blackoutDates : List BlackoutDate) : Bool :=
  let paceDueDates := getDueDates coursePaceItem coursePace.exclude_weekends
    coursePace.selected_days_to_skip blackoutDates (paceStart coursePace)
  let endDateValue := momentMax paceDueDates
  let startDateMoment := paceStart coursePace
  decide (rawDaysBetweenInclusive startDateMoment endDateValue ≤
    coursePace.time_to_complete_calendar_days)

/-- Source: `getTimeToCompleteCalendarDaysFromItemsDuration` - flattens the
modules' items, projects due dates the same way, and returns the inclusive
span minus one. -/
def getTimeToCompleteCalendarDaysFromItemsDuration (coursePace : CoursePace)
    (blackOutDates : List BlackoutDate) : Int :=
  let coursePaceItems := coursePace.modules.flatMap (fun m => m.items)
  let paceDueDates := getDueDates coursePaceItems coursePace.exclude_weekends
    coursePace.selected_days_to_skip blackOutDates (paceStart coursePace)
  let endDateValue := momentMax paceDueDates
  let startDateMoment := paceStart coursePace
  rawDaysBetweenInclusive startDateMoment endDateValue - 1

/-- Record `{duration, remainder}` returned by
`getItemsDurationFromTimeToComplete`. -/
structure ItemsDuration where
  duration : Int
  remainder : Int
deriving DecidableEq, Repr

/-- Source: `getItemsDurationFromTimeToComplete`.  Returns the `{0, 0}`
sentinel when `calendarDays < 1`, the start date is `undefined`, or the
eligible-day-adjusted start lies after `start + calendarDays` (end of
day); otherwise divides the eligible working-day count between the
adjusted start and the end date by `itemsLength`
(`Math.floor` quotient and JS `%` remainder). -/
def getItemsDurationFromTimeToComplete (coursePace : CoursePace)
    (blackOutDays : List BlackoutDate) (calendarDays : Int)
    (itemsLength : Int) : ItemsDuration :=
  if calendarDays < 1 then { duration := 0, remainder := 0 }
  else
    match coursePace.start_date with
    | none => { duration := 0, remainder := 0 }
    | some s =>
      let startDate := addDays s 1 coursePace.exclude_weekends
        coursePace.selected_days_to_skip blackOutDays
      let endDate := s + calendarDays
      if startDate > endDate then { duration := 0, remainder := 0 }
      else
        let totalDuration := daysBetween startDate endDate
          coursePace.exclude_weekends coursePace.selected_days_to_skip blackOutDays
        { duration := Int.fdiv totalDuration itemsLength,
          remainder := Int.tmod totalDuration itemsLength }

/-- Helper: `daysBetween` is a (cast) list length, hence non-negative. -/
theorem daysBetween_nonneg (startDate endDate : Int) (excludeWeekends : Bool)
    (skip : List Nat) (blackouts : List BlackoutDate) :
    0 ≤ daysBetween startDate endDate excludeWeekends skip blackouts := by
  unfold daysBetween
  exact Int.natCast_nonneg _

/-- Helper: a type outside the four known categories has no weight. -/
theorem getDuration_eq_none_of_unknown (ty : String) (w : AssignmentWeightening)
    (ht : ty ∉ (["Assignment", "DiscussionTopic", "Quizzes::Quiz", "Page"] : List String)) :
    getDuration ty w = none := by
  simp only [List.mem_cons, List.not_mem_nil, or_false, not_or] at ht
  unfold getDuration
  split <;> simp_all

/-- C1: for every non-negative integer `calendarDays`,
`calendarDaysToPaceDuration calendarDays` is a pair `{weeks, days}` with
`weeks * 7 + days = calendarDays` and `0 ≤ days ≤ 6`. -/
theorem calendarDaysToPaceDuration_correct (calendarDays : Int)
    (h : 0 ≤ calendarDays) :
    (calendarDaysToPaceDuration calendarDays).weeks * 7 +
        (calendarDaysToPaceDuration calendarDays).days = calendarDays ∧
    0 ≤ (calendarDaysToPaceDuration calendarDays).days ∧
    (calendarDaysToPaceDuration calendarDays).days ≤ 6 := by
  simp only [calendarDaysToPaceDuration]
  rw [Int.fdiv_eq_ediv _ (by norm_num), Int.tmod_eq_emod h (by norm_num)]
  omega

/-- Witness for C1 at `calendarDays = 10`. -/
theorem calendarDaysToPaceDuration_correct_witness :
    (0 : Int) ≤ 10 ∧
    ((calendarDaysToPaceDuration 10).weeks * 7 +
        (calendarDaysToPaceDuration 10).days = 10 ∧
      0 ≤ (calendarDaysToPaceDuration 10).days ∧
      (calendarDaysToPaceDuration 10).days ≤ 6) :=
  ⟨by decide, calendarDaysToPaceDuration_correct 10 (by decide)⟩

/-- C2 counterexample: an `Assignment` item of duration 5 whose weighting
entry is defined and equal to 0 keeps duration 5, whereas the claim
requires the duration to be replaced by the weight 0. -/
theorem calculatePaceItemDuration_claim_counterexample :
    getDuration "Assignment"
        { assignment := some 0, discussion := none, quiz := none, page := none } = some 0 ∧
    (calculatePaceItemDuration
        [{ id := "1", module_item_type := "Assignment", duration := 5 }]
        { assignment := some 0, discussion := none, quiz := none, page := none }).map
      CoursePaceItem.duration = [5] ∧
    ([5] : List Int) ≠ [0] := by
  refine ⟨rfl, rfl, by decide⟩

/-- C2 (amended): each item whose weighting entry is defined and non-zero
has its duration replaced by that weight; an item whose entry is undefined
or zero (and any item of unknown type) keeps its original duration. -/
theorem calculatePaceItemDuration_weight_spec (items : List CoursePaceItem)
    (w : AssignmentWeightening) (i : Nat) (item : CoursePaceItem)
    (h : items[i]? = some item) :
    ∃ res, (calculatePaceItemDuration items w)[i]? = some res ∧
      (∀ d, getDuration item.module_item_type w = some d → d ≠ 0 →
        res.duration = d) ∧
      ((getDuration item.module_item_type w = none ∨
          getDuration item.module_item_type w = some 0) →
        res.duration = item.duration) := by
  refine ⟨{ item with
      duration := jsOrElse (getDuration item.module_item_type w) item.duration },
    ?_, ?_, ?_⟩
  · simp [calculatePaceItemDuration, List.getElem?_map, h]
  · intro d hd hne
    simp [jsOrElse, hd, hne]
  · intro hcase
    rcases hcase with hc | hc <;> simp [jsOrElse, hc]

/-- Witness for C2 (amended) at a one-element list with a defined non-zero
`page` weight. -/
theorem calculatePaceItemDuration_weight_spec_witness :
    ∃ res, (calculatePaceItemDuration
        [{ id := "2", module_item_type := "Page", duration := 7 }]
        { assignment := none, discussion := none, quiz := none, page := some 3 })[0]? =
          some res ∧
      (∀ d, getDuration "Page"
          { assignment := none, discussion := none, quiz := none, page := some 3 } =
            some d → d ≠ 0 → res.duration = d) ∧
      ((getDuration "Page"
            { assignment := none, discussion := none, quiz := none, page := some 3 } =
              none ∨
          getDuration "Page"
            { assignment := none, discussion := none, quiz := none, page := some 3 } =
              some 0) →
        res.duration = 7) :=
  calculatePaceItemDuration_weight_spec
    [{ id := "2", module_item_type := "Page", duration := 7 }]
    { assignment := none, discussion := none, quiz := none, page := some 3 }
    0 { id := "2", module_item_type := "Page", duration := 7 } rfl

/-- C7: for `startDate ≤ endDate`, `calculatePaceDuration` equals
`calendarDaysToPaceDuration` applied to the inclusive day count between
the two dates. -/
theorem calculatePaceDuration_eq (startDate endDate : Int)
    (h : startDate ≤ endDate) :
    calculatePaceDuration startDate endDate =
      calendarDaysToPaceDuration (rawDaysBetweenInclusive startDate endDate) :=
  rfl

/-- Witness for C7: days 18993 and 19002 are 2022-01-01 and 2022-01-10
(day indices from 1970-01-01); the 10-day inclusive span yields
`{weeks 1, days 3}`. -/
theorem calculatePaceDuration_eq_witness :
    (18993 : Int) ≤ 19002 ∧
    calculatePaceDuration 18993 19002 = { weeks := 1, days := 3 } := by
  refine ⟨by decide, ?_⟩
  rw [calculatePaceDuration_eq 18993 19002 (by decide)]
  decide

/-- C8: `calculatePaceItemDuration` is a pure map producing a new list,
and every item whose `module_item_type` is not one of the four known
categories keeps its original duration. -/
theorem calculatePaceItemDuration_unknown_keeps (items : List CoursePaceItem)
    (w : AssignmentWeightening) (i : Nat) (item : CoursePaceItem)
    (h : items[i]? = some item)
    (ht : item.module_item_type ∉
      (["Assignment", "DiscussionTopic", "Quizzes::Quiz", "Page"] : List String)) :
    ((calculatePaceItemDuration items w).map CoursePaceItem.duration)[i]? =
      some item.duration := by
  simp [calculatePaceItemDuration, List.getElem?_map, h, jsOrElse,
    getDuration_eq_none_of_unknown item.module_item_type w ht]

/-- Witness for C8 at an item of unknown type. -/
theorem calculatePaceItemDuration_unknown_keeps_witness :
    ((calculatePaceItemDuration
        [{ id := "3", module_item_type := "ContextModuleSubHeader", duration := 4 }]
        { assignment := some 1, discussion := some 2, quiz := some 3, page := some 9 }).map
      CoursePaceItem.duration)[0]? = some 4 :=
  calculatePaceItemDuration_unknown_keeps
    [{ id := "3", module_item_type := "ContextModuleSubHeader", duration := 4 }]
    { assignment := some 1, discussion := some 2, quiz := some 3, page := some 9 }
    0 { id := "3", module_item_type := "ContextModuleSubHeader", duration := 4 }
    rfl (by decide)

/-- C9: an item whose matching weighting entry is defined but equal to 0
keeps its original duration (the weight is combined with the original
duration by a JS falsy-or, so 0 is never applied). -/
theorem calculatePaceItemDuration_zero_weight_keeps (items : List CoursePaceItem)
    (w : AssignmentWeightening) (i : Nat) (item : CoursePaceItem)
    (h : items[i]? = some item)
    (hw : getDuration item.module_item_type w = some 0) :
    ((calculatePaceItemDuration items w).map CoursePaceItem.duration)[i]? =
      some item.duration := by
  simp [calculatePaceItemDuration, List.getElem?_map, h, jsOrElse, hw]

/-- Witness for C9 at an `Assignment` item with weight 0. -/
theorem calculatePaceItemDuration_zero_weight_keeps_witness :
    ((calculatePaceItemDuration
        [{ id := "4", module_item_type := "Assignment", duration := 5 }]
        { assignment := some 0, discussion := none, quiz := none, page := none }).map
      CoursePaceItem.duration)[0]? = some 5 :=
  calculatePaceItemDuration_zero_weight_keeps
    [{ id := "4", module_item_type := "Assignment", duration := 5 }]
    { assignment := some 0, discussion := none, quiz := none, page := none }
    0 { id := "4", module_item_type := "Assignment", duration := 5 } rfl rfl

/-- C10: the result has the same length and order as the input, and every
field of a returned item other than `duration` equals the corresponding
field of the input item at the same position. -/
theorem calculatePaceItemDuration_frame (items : List CoursePaceItem)
    (w : AssignmentWeightening) :
    (calculatePaceItemDuration items w).length = items.length ∧
    ∀ (i : Nat) (item : CoursePaceItem), items[i]? = some item →
      ∃ res, (calculatePaceItemDuration items w)[i]? = some res ∧
        res.id = item.id ∧ res.module_item_type = item.module_item_type := by
  constructor
  · simp [calculatePaceItemDuration]
  · intro i item h
    refine ⟨{ item with
        duration := jsOrElse (getDuration item.module_item_type w) item.duration },
      ?_, rfl, rfl⟩
    simp [calculatePaceItemDuration, List.getElem?_map, h]

/-- Witness for C10 at a one-element list. -/
theorem calculatePaceItemDuration_frame_witness :
    (calculatePaceItemDuration
        [{ id := "5", module_item_type := "Page", duration := 9 }]
        { assignment := none, discussion := none, quiz := none, page := none }).length = 1 ∧
    (∃ res, (calculatePaceItemDuration
        [{ id := "5", module_item_type := "Page", duration := 9 }]
        { assignment := none, discussion := none, quiz := none, page := none })[0]? =
          some res ∧
      res.id = "5" ∧ res.module_item_type = "Page") :=
  ⟨(calculatePaceItemDuration_frame
      [{ id := "5", module_item_type := "Page", duration := 9 }]
      { assignment := none, discussion := none, quiz := none, page := none }).1,
    (calculatePaceItemDuration_frame
      [{ id := "5", module_item_type := "Page", duration := 9 }]
      { assignment := none, discussion := none, quiz := none, page := none }).2
      0 { id := "5", module_item_type := "Page", duration := 9 } rfl⟩

/-- C3: `isTimeToCompleteCalendarDaysValid` returns `true` iff the
inclusive calendar-day span from the pace start date to the maximum of
the due dates returned by the Due-Date Calculator is at most
`time_to_complete_calendar_days`. -/
theorem isTimeToCompleteCalendarDaysValid_iff (coursePace : CoursePace)
    (items : List CoursePaceItem) (blackoutDates : List BlackoutDate) (s : Int)
    (hs : coursePace.start_date = some s) (hne : items ≠ []) :
    isTimeToCompleteCalendarDaysValid coursePace items blackoutDates = true ↔
      rawDaysBetweenInclusive s
          (momentMax (getDueDates items coursePace.exclude_weekends
            coursePace.selected_days_to_skip blackoutDates s)) ≤
        coursePace.time_to_complete_calendar_days := by
  simp [isTimeToCompleteCalendarDaysValid, paceStart, hs]

/-- Witness for C3: the 2021-09-01 spec example (day index 18871), one
item of duration 2, budget 7 days. -/
theorem isTimeToCompleteCalendarDaysValid_iff_witness :
    isTimeToCompleteCalendarDaysValid
        { start_date := some 18871, time_to_complete_calendar_days := 7,
          exclude_weekends := false, selected_days_to_skip := [], modules := [] }
        [{ id := "1", module_item_type := "Assignment", duration := 2 }] [] = true ↔
      rawDaysBetweenInclusive 18871
          (momentMax (getDueDates
            [{ id := "1", module_item_type := "Assignment", duration := 2 }]
            false [] [] 18871)) ≤ 7 :=
  isTimeToCompleteCalendarDaysValid_iff
    { start_date := some 18871, time_to_complete_calendar_days := 7,
      exclude_weekends := false, selected_days_to_skip := [], modules := [] }
    [{ id := "1", module_item_type := "Assignment", duration := 2 }] [] 18871
    rfl (by decide)

/-- C4: `getItemsDurationFromTimeToComplete` returns the
`{duration 0, remainder 0}` sentinel whenever `calendarDays < 1`, the
start date is undefined, or the next eligible working day after the start
date falls after `start + calendarDays`. -/
theorem getItemsDurationFromTimeToComplete_sentinel (coursePace : CoursePace)
    (blackOutDays : List BlackoutDate) (calendarDays itemsLength : Int)
    (h : calendarDays < 1 ∨ coursePace.start_date = none ∨
      ∃ s, coursePace.start_date = some s ∧
        s + calendarDays <
          addDays s 1 coursePace.exclude_weekends
            coursePace.selected_days_to_skip blackOutDays) :
    getItemsDurationFromTimeToComplete coursePace blackOutDays calendarDays
        itemsLength = { duration := 0, remainder := 0 } := by
  unfold getItemsDurationFromTimeToComplete
  rcases h with h | h | ⟨s, hs, hlt⟩
  · simp [h]
  · by_cases hc : calendarDays < 1
    · simp [hc]
    · simp [hc, h]
  · by_cases hc : calendarDays < 1
    · simp [hc]
    · simp [hc, hs, hlt]

/-- Witness for C4 at `calendarDays = 0`. -/
theorem getItemsDurationFromTimeToComplete_sentinel_witness :
    (0 : Int) < 1 ∧
    getItemsDurationFromTimeToComplete
        { start_date := some 18871, time_to_complete_calendar_days := 7,
          exclude_weekends := false, selected_days_to_skip := [], modules := [] }
        [] 0 3 = { duration := 0, remainder := 0 } :=
  ⟨by decide,
    getItemsDurationFromTimeToComplete_sentinel
      { start_date := some 18871, time_to_complete_calendar_days := 7,
        exclude_weekends := false, selected_days_to_skip := [], modules := [] }
      [] 0 3 (Or.inl (by decide))⟩

/-- C5: in the non-degenerate case, `getItemsDurationFromTimeToComplete`
returns the floor quotient and remainder of the eligible working-day
count `E` between the adjusted start and the end date by `itemsLength`,
so `duration * itemsLength + remainder = E` with
`0 ≤ remainder < itemsLength`. -/
theorem getItemsDurationFromTimeToComplete_divmod (coursePace : CoursePace)
    (blackOutDays : List BlackoutDate) (calendarDays itemsLength s E : Int)
    (hs : coursePace.start_date = some s) (hc : 1 ≤ calendarDays)
    (hrange : addDays s 1 coursePace.exclude_weekends
      coursePace.selected_days_to_skip blackOutDays ≤ s + calendarDays)
    (hn : 0 < itemsLength)
    (hE : E = daysBetween
      (addDays s 1 coursePace.exclude_weekends
        coursePace.selected_days_to_skip blackOutDays)
      (s + calendarDays) coursePace.exclude_weekends
      coursePace.selected_days_to_skip blackOutDays) :
    getItemsDurationFromTimeToComplete coursePace blackOutDays calendarDays
        itemsLength =
      { duration := E / itemsLength, remainder := E % itemsLength } ∧
    E / itemsLength * itemsLength + E % itemsLength = E ∧
    0 ≤ E % itemsLength ∧ E % itemsLength < itemsLength := by
  have hE0 : 0 ≤ E := hE ▸ daysBetween_nonneg _ _ _ _ _
  refine ⟨?_, ?_, ?_, ?_⟩
  · unfold getItemsDurationFromTimeToComplete
    rw [if_neg (by omega)]
    simp only [hs]
    rw [if_neg (by exact not_lt.mpr hrange)]
    rw [← hE]
    rw [Int.fdiv_eq_ediv _ hn.le, Int.tmod_eq_emod hE0 hn.le]
  · rw [mul_comm]
    exact Int.ediv_add_emod E itemsLength
  · exact Int.emod_nonneg E (by omega)
  · exact Int.emod_lt_of_pos E hn

/-- Witness for C5: start 2021-09-01 (day 18871), no exclusions, a 10-day
window and 3 items; the eligible-day count is 8, giving duration 2 and
remainder 2. -/
theorem getItemsDurationFromTimeToComplete_divmod_witness :
    getItemsDurationFromTimeToComplete
        { start_date := some 18871, time_to_complete_calendar_days := 7,
          exclude_weekends := false, selected_days_to_skip := [], modules := [] }
        [] 10 3 =
      { duration := (8 : Int) / 3, remainder := (8 : Int) % 3 } ∧
    (8 : Int) / 3 * 3 + (8 : Int) % 3 = 8 ∧
    0 ≤ (8 : Int) % 3 ∧ (8 : Int) % 3 < 3 :=
  getItemsDurationFromTimeToComplete_divmod
    { start_date := some 18871, time_to_complete_calendar_days := 7,
      exclude_weekends := false, selected_days_to_skip := [], modules := [] }
    [] 10 3 18871 8 rfl (by decide) (by decide) (by decide) (by decide)

/-- C6: `getTimeToCompleteCalendarDaysFromItemsDuration` flattens the
modules' items into one sequence, projects due dates the same way as the
validator, and returns the inclusive span from the start date to the
maximum due date, minus 1. -/
theorem getTimeToCompleteCalendarDaysFromItemsDuration_eq
    (coursePace : CoursePace) (blackOutDates : List BlackoutDate) (s : Int)
    (hs : coursePace.start_date = some s) :
    getTimeToCompleteCalendarDaysFromItemsDuration coursePace blackOutDates =
      rawDaysBetweenInclusive s
          (momentMax (getDueDates
            (coursePace.modules.flatMap (fun m => m.items))
            coursePace.exclude_weekends coursePace.selected_days_to_skip
            blackOutDates s)) - 1 := by
  simp [getTimeToCompleteCalendarDaysFromItemsDuration, paceStart, hs]

/-- Witness for C6 at a pace with one module of one item. -/
theorem getTimeToCompleteCalendarDaysFromItemsDuration_eq_witness :
    getTimeToCompleteCalendarDaysFromItemsDuration
        { start_date := some 18871, time_to_complete_calendar_days := 7,
          exclude_weekends := false, selected_days_to_skip := [],
          modules := [{ items :=
            [{ id := "1", module_item_type := "Assignment", duration := 2 }] }] }
        [] =
      rawDaysBetweenInclusive 18871
          (momentMax (getDueDates
            (([⟨[⟨"1", "Assignment", 2⟩]⟩] : List CoursePaceModule).flatMap
              (fun m => m.items))
            false [] [] 18871)) - 1 :=
  getTimeToCompleteCalendarDaysFromItemsDuration_eq
    { start_date := some 18871, time_to_complete_calendar_days := 7,
      exclude_weekends := false, selected_days_to_skip := [],
      modules := [{ items :=
        [{ id := "1", module_item_type := "Assignment", duration := 2 }] }] }
    [] 18871 rfl
